import Mathlib

/-!
Shallow embedding of the demo provisioning utilities in
`demos/05 Vessel Detection Pipeline/utils.py`.

The module authenticates at load time (lines 10-12), binding `org`
(possibly absent or empty) and `user_hash`, and then defines idempotent
reset/create operations over two remote resource kinds: catalog
products (with one band and one uploaded image) and vector tables
(with a fixed schema model).  Remote calls are modelled as explicit
state transitions over a catalog value, together with a trace of the
remote calls issued and an environment of injectable service failures,
so that both the happy paths and the error paths of the Python code
become provable statements.
-/

set_option autoImplicit false

namespace VesselDemo

/-- An exception raised while running the provisioning code: either an
opaque error surfaced by the remote client, or a Python `NameError`
raised when an unbound name is evaluated. -/
inductive Err where
  | service : String → Err
  | nameError : String → Err
  deriving DecidableEq, Repr

/-- One raster band descriptor, with the fields set at utils.py
lines 58-66 (`GenericBand(id=..., band_index=0, ...)`). -/
structure BandRec where
  id : String
  band_index : Nat
  file_index : Nat
  data_range : List Int
  data_type : String
  display_range : List Int
  resolution_unit : String
  resolution_value : Nat
  deriving DecidableEq, Repr

/-- One uploaded raster asset of a product (utils.py lines 70-73). -/
structure ImageRec where
  name : String
  acquired : String
  file : String
  deriving DecidableEq, Repr

/-- A remote catalog product: id, display name, tags, and its dependent
band and image children. -/
structure ProductRec where
  id : String
  name : String
  tags : List String
  bands : List BandRec
  images : List ImageRec
  deriving DecidableEq, Repr

/-- Geometry kind carried by a vector table base model.  The source
uses `models.MultiPolygonBaseModel` for both schema variants. -/
inductive GeomKind where
  | multipolygon
  deriving DecidableEq, Repr

/-- A vector table schema model: declared attribute fields (name and
type annotation, in declaration order) plus the geometry kind of the
base model. -/
structure SchemaModel where
  fields : List (String × String)
  geometry : GeomKind
  deriving DecidableEq, Repr

/-- A remote vector table: namespace-or-bare id, display name, schema. -/
structure TableRec where
  id : String
  name : String
  model : SchemaModel
  deriving DecidableEq, Repr

/-- The remote service state visible to this module: catalog products
and vector tables. -/
structure Catalog where
  products : List ProductRec
  tables : List TableRec
  deriving DecidableEq, Repr

/-- An observable remote call, recorded with the identifier it was
given, so that which id each call targets is itself provable. -/
inductive CallEv where
  | productGet (pid : String)
  | deleteRelated (pid : String)
  | productDelete (pid : String)
  | productSave (pid : String)
  | bandSave (bid : String)
  | imageUpload (pid : String) (name : String) (file : String)
  | tableGet (tid : String)
  | tableDelete (tid : String)
  | tableCreate (tid : String) (name : String)
  deriving DecidableEq, Repr

/-- Execution state: the remote catalog plus the trace of remote calls
issued so far. -/
structure St where
  catalog : Catalog
  trace : List CallEv
  deriving DecidableEq, Repr

/-- Failure injection for the remote service: for each remote call
kind, `some e` makes that call raise `e`, `none` makes it succeed.
The Python code has no local failure handling except the bare
`except` in `reset_table`, so each call site either propagates or
swallows these. -/
structure Env where
  productSaveErr : Option Err
  bandSaveErr : Option Err
  uploadErr : Option Err
  drelErr : Option Err
  productDeleteErr : Option Err
  tableGetErr : Option Err
  tableDeleteErr : Option Err
  tableCreateErr : Option Err
  deriving DecidableEq, Repr

/-- The environment in which every remote call succeeds. -/
def noErr : Env := ⟨none, none, none, none, none, none, none, none⟩

/-- Module-level session bindings established at load time
(utils.py lines 10-12): `org = auth.payload['org']` (which may be
absent or the empty string) and `user_hash = auth.namespace`.  No
line of the module binds the name `user_id`. -/
structure ModuleEnv where
  org : Option String
  user_hash : String
  deriving DecidableEq, Repr

/-- Python truthiness of the `org` binding: `None` and the empty
string are falsy; any other string is truthy. -/
def isTruthy : Option String → Bool
  | none => false
  | some s => s != ""

/-- Evaluation of the Python expression `org or user_id`
(utils.py lines 32-33).  When `org` is truthy the expression yields
`org`; otherwise Python evaluates the name `user_id`, which is
unbound (line 12 binds `user_hash`, not `user_id`), so a `NameError`
is raised. -/
def orgOrUserId (m : ModuleEnv) : Except Err String :=
  match m.org with
  | some s => if s != "" then Except.ok s else Except.error (Err.nameError "user_id")
  | none => Except.error (Err.nameError "user_id")

/-- Python `tid.startswith(ns)`: character-level prefix test. -/
def startswith (tid ns : String) : Bool := ns.data.isPrefixOf tid.data

/-- The id rewriting performed at utils.py lines 32-33:
`if not tid.startswith(org or user_id): tid = ns + colon + tid`.
Note the guard is a plain string-prefix test against the namespace,
not a test for namespace qualification. -/
def normalize_tid (ns tid : String) : String :=
  if startswith tid ns then tid else ns ++ ":" ++ tid

/-- An id of the namespace-qualified shape `namespace:name`
(spec section 3), i.e. containing a colon separator. -/
def isQualified (tid : String) : Bool := tid.data.contains ':'

/-- `Product.get(pid)` (utils.py line 18): look up a product by id;
yields `none` when absent.  Records the call; never raises. -/
def Product_get (pid : String) (st : St) : Option ProductRec × St :=
  (st.catalog.products.find? (fun p => p.id == pid),
   { st with trace := st.trace ++ [CallEv.productGet pid] })

/-- Removing a product's dependent bands and images, the effect of the
cascading delete on the product with the given id. -/
def clearChildren (pid : String) (p : ProductRec) : ProductRec :=
  if p.id == pid then { p with bands := [], images := [] } else p

/-- `product.delete_related_objects()` followed by
`status.wait_for_completion()` (utils.py lines 22-24): delete the
product's dependent bands and images and wait for the cascade. -/
def delete_related_objects (env : Env) (pid : String) (st : St) :
    Except Err Unit × St :=
  let st' := { st with trace := st.trace ++ [CallEv.deleteRelated pid] }
  match env.drelErr with
  | some e => (Except.error e, st')
  | none =>
      (Except.ok (),
       { st' with catalog :=
          { st'.catalog with
              products := st'.catalog.products.map (clearChildren pid) } })

/-- `product.delete()` (utils.py line 25): remove the product record. -/
def Product_delete (env : Env) (pid : String) (st : St) :
    Except Err Unit × St :=
  let st' := { st with trace := st.trace ++ [CallEv.productDelete pid] }
  match env.productDeleteErr with
  | some e => (Except.error e, st')
  | none =>
      (Except.ok (),
       { st' with catalog :=
          { st'.catalog with
              products := st'.catalog.products.filter (fun p => p.id != pid) } })

/-- `reset_product(pid)` (utils.py lines 14-26): look the product up;
if found, cascade-delete its children, wait, then delete it; no-op
when the lookup yields nothing. -/
def reset_product (env : Env) (pid : String) (st : St) :
    Except Err Unit × St :=
  match Product_get pid st with
  | (none, st') => (Except.ok (), st')
  | (some _, st') =>
      match delete_related_objects env pid st' with
      | (Except.error e, st'') => (Except.error e, st'')
      | (Except.ok _, st'') => Product_delete env pid st''

/-- `product.save()` (utils.py line 56): persist the product record,
creating it when absent and updating name and tags when present. -/
def Product_save (env : Env) (pid name : String) (tags : List String)
    (st : St) : Except Err Unit × St :=
  let st' := { st with trace := st.trace ++ [CallEv.productSave pid] }
  match env.productSaveErr with
  | some e => (Except.error e, st')
  | none =>
      let ps := st'.catalog.products
      let ps' :=
        if ps.any (fun p => p.id == pid) then
          ps.map (fun p =>
            if p.id == pid then { p with name := name, tags := tags } else p)
        else ps ++ [⟨pid, name, tags, [], []⟩]
      (Except.ok (), { st' with catalog := { st'.catalog with products := ps' } })

/-- `band.save()` (utils.py line 67): attach the band to the product
its id is derived from, replacing any band with the same id. -/
def Band_save (env : Env) (pid : String) (b : BandRec) (st : St) :
    Except Err Unit × St :=
  let st' := { st with trace := st.trace ++ [CallEv.bandSave b.id] }
  match env.bandSaveErr with
  | some e => (Except.error e, st')
  | none =>
      (Except.ok (),
       { st' with catalog :=
          { st'.catalog with
              products := st'.catalog.products.map (fun p =>
                if p.id == pid then
                  { p with bands := p.bands.filter (fun b2 => b2.id != b.id) ++ [b] }
                else p) } })

/-- `img.upload(file, overwrite=True)` followed by
`upload.wait_for_completion()` (utils.py lines 72-73): add the image
to the product, replacing any image with the same name. -/
def Image_upload (env : Env) (pid : String) (img : ImageRec) (st : St) :
    Except Err Unit × St :=
  let st' := { st with trace := st.trace ++ [CallEv.imageUpload pid img.name img.file] }
  match env.uploadErr with
  | some e => (Except.error e, st')
  | none =>
      (Except.ok (),
       { st' with catalog :=
          { st'.catalog with
              products := st'.catalog.products.map (fun p =>
                if p.id == pid then
                  { p with images := p.images.filter (fun i => i.name != img.name) ++ [img] }
                else p) } })

/-- The hardcoded band descriptor of utils.py lines 58-66. -/
def vvBand (pid : String) : BandRec :=
  ⟨pid ++ ":vv", 0, 0, [1, 4095], "UInt16", [858, 2926], "meters", 10⟩

/-- The hardcoded sample image of utils.py lines 70-72. -/
def sampleImage : ImageRec := ⟨"image1", "2025-02-04", "data/s1_sample_1.tif"⟩

/-- `create_s1_product(pid, name)` (utils.py lines 43-76): reset, then
construct and save the product, save the hardcoded band, upload the
hardcoded sample image, and yield the product id. -/
def create_s1_product (env : Env) (pid name : String) (st : St) :
    Except Err String × St :=
  match reset_product env pid st with
  | (Except.error e, st1) => (Except.error e, st1)
  | (Except.ok _, st1) =>
      match Product_save env pid name ["examples"] st1 with
      | (Except.error e, st2) => (Except.error e, st2)
      | (Except.ok _, st2) =>
          match Band_save env pid (vvBand pid) st2 with
          | (Except.error e, st3) => (Except.error e, st3)
          | (Except.ok _, st3) =>
              match Image_upload env pid sampleImage st3 with
              | (Except.error e, st4) => (Except.error e, st4)
              | (Except.ok _, st4) => (Except.ok pid, st4)

/-- `Table.get(tid)` (utils.py line 35): look a table up by id;
yields `none` when absent, or raises the injected service error. -/
def Table_get (env : Env) (tid : String) (st : St) :
    Except Err (Option TableRec) × St :=
  let st' := { st with trace := st.trace ++ [CallEv.tableGet tid] }
  match env.tableGetErr with
  | some e => (Except.error e, st')
  | none => (Except.ok (st'.catalog.tables.find? (fun t => t.id == tid)), st')

/-- `table.delete()` (utils.py line 37): remove the table record. -/
def Table_delete (env : Env) (tid : String) (st : St) :
    Except Err Unit × St :=
  let st' := { st with trace := st.trace ++ [CallEv.tableDelete tid] }
  match env.tableDeleteErr with
  | some e => (Except.error e, st')
  | none =>
      (Except.ok (),
       { st' with catalog :=
          { st'.catalog with
              tables := st'.catalog.tables.filter (fun t => t.id != tid) } })

/-- `Table.create(tid, name=..., model=...)` (utils.py lines 92-96 and
113-117): create a table with the given id, display name and schema
model, and yield the created record. -/
def Table_create (env : Env) (tid name : String) (model : SchemaModel)
    (st : St) : Except Err TableRec × St :=
  let st' := { st with trace := st.trace ++ [CallEv.tableCreate tid name] }
  match env.tableCreateErr with
  | some e => (Except.error e, st')
  | none =>
      (Except.ok ⟨tid, name, model⟩,
       { st' with catalog :=
          { st'.catalog with
              tables := st'.catalog.tables ++ [⟨tid, name, model⟩] } })

/-- `reset_table(tid)` (utils.py lines 28-40): rewrite the id when it
does not start with `org or user_id` (an expression that raises
`NameError` when `org` is falsy, before any lookup), then inside a
bare try/except look the table up and delete it when found; any
exception raised in the try block is swallowed and the rewritten id
is returned; every other path falls off the end and returns `None`. -/
def reset_table (m : ModuleEnv) (env : Env) (tid : String) (st : St) :
    Except Err (Option String) × St :=
  match orgOrUserId m with
  | Except.error e => (Except.error e, st)
  | Except.ok ns =>
      let tid' := normalize_tid ns tid
      match Table_get env tid' st with
      | (Except.error _, st1) => (Except.ok (some tid'), st1)
      | (Except.ok none, st1) => (Except.ok none, st1)
      | (Except.ok (some _), st1) =>
          match Table_delete env tid' st1 with
          | (Except.error _, st2) => (Except.ok (some tid'), st2)
          | (Except.ok _, st2) => (Except.ok none, st2)

/-- The S1 vessel detections schema model (utils.py lines 79-84):
declared fields `DATE: str` and `SOURCE_IMG_ID: str` on a
multipolygon base model. -/
def S1VesselModel : SchemaModel :=
  ⟨[("DATE", "str"), ("SOURCE_IMG_ID", "str")], GeomKind.multipolygon⟩

/-- The S2 vessel detections schema model (utils.py lines 100-105):
declared fields `date: str` and `confidence: str` on a multipolygon
base model. -/
def S2VesselModel : SchemaModel :=
  ⟨[("date", "str"), ("confidence", "str")], GeomKind.multipolygon⟩

/-- `create_s1_table(tid)` (utils.py lines 86-97): reset (discarding
the value reset_table returns), then create the table passing the
caller-supplied `tid` unchanged, and yield the created table's id. -/
def create_s1_table (m : ModuleEnv) (env : Env) (tid : String) (st : St) :
    Except Err String × St :=
  match reset_table m env tid st with
  | (Except.error e, st1) => (Except.error e, st1)
  | (Except.ok _, st1) =>
      match Table_create env tid "S1 Vessel Detections Demo" S1VesselModel st1 with
      | (Except.error e, st2) => (Except.error e, st2)
      | (Except.ok t, st2) => (Except.ok t.id, st2)

/-- `create_s2_table(tid)` (utils.py lines 107-118): reset (discarding
the value reset_table returns), then create the table passing the
caller-supplied `tid` unchanged, and yield the created table's id. -/
def create_s2_table (m : ModuleEnv) (env : Env) (tid : String) (st : St) :
    Except Err String × St :=
  match reset_table m env tid st with
  | (Except.error e, st1) => (Except.error e, st1)
  | (Except.ok _, st1) =>
      match Table_create env tid "S2 Geoai Vessel Detections Demo" S2VesselModel st1 with
      | (Except.error e, st2) => (Except.error e, st2)
      | (Except.ok t, st2) => (Except.ok t.id, st2)

/-- The empty starting state: no products, no tables, no calls yet. -/
def st0 : St := ⟨⟨[], []⟩, []⟩

/-- Modelled from the spec: the attribute field names the spec claims
for schema variant A, namely "date" and "source-image-id", for
comparison with the fields the source actually declares. -/
def specClaimS1Fields : List String := ["date", "source-image-id"]

/-- The product record left by a successful `create_s1_product` run. -/
def finalProd (pid name : String) : ProductRec :=
  ⟨pid, name, ["examples"], [vvBand pid], [sampleImage]⟩

/-! ### Helper lemmas on the list-backed catalog state -/

theorem data_append_eq (a b : String) : (a ++ b).data = a.data ++ b.data := by
  cases a; cases b; rfl

theorem ns_colon_ne (ns tid : String) : ns ++ ":" ++ tid ≠ tid := by
  intro h
  have h2 := congrArg (fun s => s.data.length) h
  simp only [data_append_eq, List.length_append, List.length_cons,
    List.length_nil] at h2
  omega

theorem filter_eq_self_of_find?_none {α : Type} (f : α → String) (k : String)
    (xs : List α) (h : xs.find? (fun a => f a == k) = none) :
    xs.filter (fun a => f a != k) = xs := by
  induction xs with
  | nil => rfl
  | cons a l ih =>
      rw [List.find?_cons] at h
      cases hb : (f a == k) with
      | true => rw [hb] at h; simp at h
      | false =>
          rw [hb] at h
          have hb' : (f a != k) = true := by simp [bne, hb]
          simp [List.filter_cons, hb', ih h]

theorem any_eq_false_of_find?_none {α : Type} (f : α → String) (k : String)
    (xs : List α) (h : xs.find? (fun a => f a == k) = none) :
    xs.any (fun a => f a == k) = false := by
  rw [List.any_eq_false]
  intro x hx
  exact List.find?_eq_none.mp h x hx

theorem any_filter_ne_eq_false {α : Type} (f : α → String) (k : String)
    (xs : List α) :
    (xs.filter (fun a => f a != k)).any (fun a => f a == k) = false := by
  rw [List.any_eq_false]
  intro x hx
  have h2 := (List.mem_filter.mp hx).2
  intro hc
  simp only [bne] at h2
  rw [hc] at h2
  simp at h2

theorem map_if_eq_self {α : Type} (f : α → String) (k : String) (g : α → α)
    (xs : List α) (h : xs.any (fun a => f a == k) = false) :
    xs.map (fun a => if f a == k then g a else a) = xs := by
  induction xs with
  | nil => rfl
  | cons a l ih =>
      rw [List.any_cons, Bool.or_eq_false_iff] at h
      have hc : ¬((f a == k) = true) := by rw [h.1]; simp
      rw [List.map_cons, if_neg hc, ih h.2]

theorem clearChildren_id (pid : String) (p : ProductRec) :
    (clearChildren pid p).id = p.id := by
  unfold clearChildren
  split <;> rfl

theorem filter_map_clearChildren (pid : String) (ps : List ProductRec) :
    (ps.map (clearChildren pid)).filter (fun p => p.id != pid)
      = ps.filter (fun p => p.id != pid) := by
  induction ps with
  | nil => rfl
  | cons a l ih =>
      cases hb : (a.id == pid) with
      | true =>
          have e1 : ((clearChildren pid a).id != pid) = false := by
            rw [clearChildren_id]; simp [bne, hb]
          have e2 : (a.id != pid) = false := by simp [bne, hb]
          simp [List.map_cons, List.filter_cons, e1, e2, ih]
      | false =>
          have ha : clearChildren pid a = a := by
            unfold clearChildren
            rw [hb]
            rfl
          have e2 : (a.id != pid) = true := by simp [bne, hb]
          simp [List.map_cons, List.filter_cons, ha, e2, ih]

theorem filter_ne_idem {α : Type} (f : α → String) (k : String) (xs : List α) :
    ((xs.filter (fun a => f a != k)).filter (fun a => f a != k))
      = xs.filter (fun a => f a != k) :=
  List.filter_eq_self.mpr (fun _ hx => (List.mem_filter.mp hx).2)

theorem ite_bool_true {α : Type} (a b : α) (c : Bool) (h : c = true) :
    (if c = true then a else b) = a := by rw [h]; rfl

theorem ite_bool_false {α : Type} (a b : α) (c : Bool) (h : c = false) :
    (if c = true then a else b) = b := by rw [h]; rfl

theorem filter_eq_of_filter_ne {α : Type} (f : α → String) (k : String)
    (xs : List α) :
    (xs.filter (fun a => f a != k)).filter (fun a => f a == k) = [] := by
  rw [List.filter_eq_nil_iff]
  intro a ha
  have h2 := (List.mem_filter.mp ha).2
  intro hc
  simp only [bne] at h2
  rw [hc] at h2
  simp at h2

/-- The net effect of one successful `create_s1_product` call on an
arbitrary starting state: any products carrying the target id are
removed and exactly one freshly built product is appended. -/
theorem create_s1_products_eq (pid name : String) (st : St) :
    (create_s1_product noErr pid name st).1 = Except.ok pid
    ∧ (create_s1_product noErr pid name st).2.catalog.products
        = st.catalog.products.filter (fun p => p.id != pid) ++ [finalProd pid name]
    ∧ (create_s1_product noErr pid name st).2.catalog.tables = st.catalog.tables := by
  cases h : st.catalog.products.find? (fun p => p.id == pid) with
  | none =>
      have hfil := filter_eq_self_of_find?_none (fun p => p.id) pid
        st.catalog.products h
      have hany := any_eq_false_of_find?_none (fun p => p.id) pid
        st.catalog.products h
      refine ⟨?_, ?_, ?_⟩ <;>
        simp only [create_s1_product, reset_product, Product_get,
          delete_related_objects, Product_delete, Product_save, Band_save,
          Image_upload, noErr, vvBand, sampleImage, finalProd, h, hany, hfil,
          ite_bool_false, ite_bool_true, beq_self_eq_true, if_true, if_false,
          map_if_eq_self, List.map_append, List.map_cons, List.map_nil,
          List.filter_nil, List.nil_append, List.filter_append]
  | some q =>
      have hmapfil := filter_map_clearChildren pid st.catalog.products
      have hany := any_filter_ne_eq_false (fun p => p.id) pid
        st.catalog.products
      refine ⟨?_, ?_, ?_⟩ <;>
        simp only [create_s1_product, reset_product, Product_get,
          delete_related_objects, Product_delete, Product_save, Band_save,
          Image_upload, noErr, vvBand, sampleImage, finalProd, h, hmapfil, hany,
          ite_bool_false, ite_bool_true, beq_self_eq_true, if_true, if_false,
          map_if_eq_self, List.map_append, List.map_cons, List.map_nil,
          List.filter_nil, List.nil_append, List.filter_append]

/-! ### Reduction lemmas for `orgOrUserId` and `reset_table` -/

theorem orgOrUserId_of_falsy (m : ModuleEnv) (h : isTruthy m.org = false) :
    orgOrUserId m = Except.error (Err.nameError "user_id") := by
  cases hm : m.org with
  | none => simp only [orgOrUserId, hm]
  | some s =>
      rw [hm] at h
      simp only [isTruthy] at h
      simp only [orgOrUserId, hm, ite_bool_false _ _ _ h]

theorem orgOrUserId_of_truthy (m : ModuleEnv) (h : isTruthy m.org = true) :
    ∃ ns, orgOrUserId m = Except.ok ns := by
  cases hm : m.org with
  | none => rw [hm] at h; simp [isTruthy] at h
  | some s =>
      rw [hm] at h
      simp only [isTruthy] at h
      exact ⟨s, by simp only [orgOrUserId, hm, ite_bool_true _ _ _ h]⟩

theorem reset_table_falsy (m : ModuleEnv) (env : Env) (tid : String) (st : St)
    (h : isTruthy m.org = false) :
    reset_table m env tid st = (Except.error (Err.nameError "user_id"), st) := by
  simp only [reset_table, orgOrUserId_of_falsy m h]

theorem reset_table_get_err (m : ModuleEnv) (env : Env) (ns tid : String)
    (st : St) (e : Err) (hns : orgOrUserId m = Except.ok ns)
    (he : env.tableGetErr = some e) :
    reset_table m env tid st
      = (Except.ok (some (normalize_tid ns tid)),
         { st with trace := st.trace ++ [CallEv.tableGet (normalize_tid ns tid)] }) := by
  simp only [reset_table, hns, Table_get, he]

theorem reset_table_absent (m : ModuleEnv) (env : Env) (ns tid : String)
    (st : St) (hns : orgOrUserId m = Except.ok ns)
    (hget : env.tableGetErr = none)
    (habs : st.catalog.tables.find? (fun t => t.id == normalize_tid ns tid) = none) :
    reset_table m env tid st
      = (Except.ok none,
         { st with trace := st.trace ++ [CallEv.tableGet (normalize_tid ns tid)] }) := by
  simp only [reset_table, hns, Table_get, hget, habs]

theorem reset_table_found_ok (m : ModuleEnv) (env : Env) (ns tid : String)
    (st : St) (t : TableRec) (hns : orgOrUserId m = Except.ok ns)
    (hget : env.tableGetErr = none)
    (hfind : st.catalog.tables.find? (fun tb => tb.id == normalize_tid ns tid) = some t)
    (hdel : env.tableDeleteErr = none) :
    reset_table m env tid st
      = (Except.ok none,
         ⟨⟨st.catalog.products,
           st.catalog.tables.filter (fun tb => tb.id != normalize_tid ns tid)⟩,
          st.trace ++ [CallEv.tableGet (normalize_tid ns tid),
                       CallEv.tableDelete (normalize_tid ns tid)]⟩) := by
  simp only [reset_table, hns, Table_get, hget, hfind, Table_delete, hdel,
    List.append_assoc, List.cons_append, List.nil_append]

theorem reset_table_found_delete_err (m : ModuleEnv) (env : Env)
    (ns tid : String) (st : St) (t : TableRec) (e : Err)
    (hns : orgOrUserId m = Except.ok ns)
    (hget : env.tableGetErr = none)
    (hfind : st.catalog.tables.find? (fun tb => tb.id == normalize_tid ns tid) = some t)
    (hdel : env.tableDeleteErr = some e) :
    reset_table m env tid st
      = (Except.ok (some (normalize_tid ns tid)),
         { st with trace := st.trace ++ [CallEv.tableGet (normalize_tid ns tid),
                                         CallEv.tableDelete (normalize_tid ns tid)] }) := by
  simp only [reset_table, hns, Table_get, hget, hfind, Table_delete, hdel,
    List.append_assoc, List.cons_append, List.nil_append]

/-- Running `create_s1_product` in an environment where only the image
upload fails: the error is raised after the band was saved, so the
state keeps the half-built product (band present, no image). -/
theorem create_s1_partial_eq (pid name : String) (st : St) (e : Err) :
    ((create_s1_product ⟨none, none, some e, none, none, none, none, none⟩
        pid name st).1 = Except.error e)
    ∧ ((create_s1_product ⟨none, none, some e, none, none, none, none, none⟩
        pid name st).2.catalog.products
        = st.catalog.products.filter (fun p => p.id != pid)
            ++ [⟨pid, name, ["examples"], [vvBand pid], []⟩]) := by
  cases h : st.catalog.products.find? (fun p => p.id == pid) with
  | none =>
      have hfil := filter_eq_self_of_find?_none (fun p => p.id) pid
        st.catalog.products h
      have hany := any_eq_false_of_find?_none (fun p => p.id) pid
        st.catalog.products h
      refine ⟨?_, ?_⟩ <;>
        simp only [create_s1_product, reset_product, Product_get,
          delete_related_objects, Product_delete, Product_save, Band_save,
          Image_upload, vvBand, h, hany, hfil,
          ite_bool_false, ite_bool_true, beq_self_eq_true, if_true, if_false,
          map_if_eq_self, List.map_append, List.map_cons, List.map_nil,
          List.filter_nil, List.nil_append, List.filter_append]
  | some q =>
      have hmapfil := filter_map_clearChildren pid st.catalog.products
      have hany := any_filter_ne_eq_false (fun p => p.id) pid
        st.catalog.products
      refine ⟨?_, ?_⟩ <;>
        simp only [create_s1_product, reset_product, Product_get,
          delete_related_objects, Product_delete, Product_save, Band_save,
          Image_upload, vvBand, h, hmapfil, hany,
          ite_bool_false, ite_bool_true, beq_self_eq_true, if_true, if_false,
          map_if_eq_self, List.map_append, List.map_cons, List.map_nil,
          List.filter_nil, List.nil_append, List.filter_append]

/-! ### Claim theorems -/

/-- C1: if any exception is raised during the lookup or the delete
inside `reset_table`, it is swallowed — no exception propagates to the
caller — and `reset_table` returns the normalized namespace-qualified
id instead, regardless of whether the raised error was a not-found
error or a genuine service error. -/
theorem C1_reset_table_swallows_exceptions
    (m : ModuleEnv) (ns tid : String) (st : St) (e : Err)
    (hns : orgOrUserId m = Except.ok ns) :
    (∀ env : Env, env.tableGetErr = some e →
      (reset_table m env tid st).1 = Except.ok (some (normalize_tid ns tid)))
    ∧ (∀ env : Env, env.tableGetErr = none → env.tableDeleteErr = some e →
        ∀ t : TableRec,
          st.catalog.tables.find? (fun tb => tb.id == normalize_tid ns tid) = some t →
          (reset_table m env tid st).1 = Except.ok (some (normalize_tid ns tid))) := by
  constructor
  · intro env he
    rw [reset_table_get_err m env ns tid st e hns he]
  · intro env hget hdel t hfind
    rw [reset_table_found_delete_err m env ns tid st t e hns hget hfind hdel]

/-- Witness for C1 at concrete inputs: a failing lookup and a failing
delete are both swallowed and the normalized id is returned. -/
theorem C1_witness :
    ((reset_table ⟨some "org", "h"⟩
        ⟨none, none, none, none, none, some (Err.service "boom"), none, none⟩
        "vessels" st0).1
      = Except.ok (some (normalize_tid "org" "vessels")))
    ∧ ((reset_table ⟨some "org", "h"⟩
        ⟨none, none, none, none, none, none, some (Err.service "boom"), none⟩
        "vessels" ⟨⟨[], [⟨"org:vessels", "T", S1VesselModel⟩]⟩, []⟩).1
      = Except.ok (some (normalize_tid "org" "vessels"))) :=
  ⟨(C1_reset_table_swallows_exceptions ⟨some "org", "h"⟩ "org" "vessels" st0
      (Err.service "boom") rfl).1 _ rfl,
   (C1_reset_table_swallows_exceptions ⟨some "org", "h"⟩ "org" "vessels"
      ⟨⟨[], [⟨"org:vessels", "T", S1VesselModel⟩]⟩, []⟩
      (Err.service "boom") rfl).2 _ rfl rfl
      ⟨"org:vessels", "T", S1VesselModel⟩ (by decide)⟩

/-- C2 counterexample: with namespace "org" and the bare, unqualified
input id "orgvessels", reset_table leaves the id unchanged — because
the guard is a plain string-prefix test — so the only lookup performed
targets the bare "orgvessels", not a namespace-qualified
"org:orgvessels". -/
theorem C2_counterexample :
    isQualified "orgvessels" = false
    ∧ (reset_table ⟨some "org", "h"⟩ noErr "orgvessels" st0).2.trace
        = [CallEv.tableGet "orgvessels"]
    ∧ "orgvessels" ≠ "org" ++ ":" ++ "orgvessels" := by decide

/-- C2 (amended): before any lookup, reset_table rewrites the id and
the lookup targets the rewritten id; but the rewrite prefixes the
namespace exactly when the input does not start with the namespace
string — a bare name that happens to start with the namespace text is
left unchanged, and an id qualified under a different namespace is
prefixed again. -/
theorem C2_amended_normalization (m : ModuleEnv) (env : Env)
    (ns tid : String) (st : St) (hns : orgOrUserId m = Except.ok ns) :
    (∃ rest, (reset_table m env tid st).2.trace
        = st.trace ++ CallEv.tableGet (normalize_tid ns tid) :: rest)
    ∧ (startswith tid ns = true → normalize_tid ns tid = tid)
    ∧ (startswith tid ns = false → normalize_tid ns tid = ns ++ ":" ++ tid) := by
  refine ⟨?_, fun h => by simp only [normalize_tid, ite_bool_true _ _ _ h],
    fun h => by simp only [normalize_tid, ite_bool_false _ _ _ h]⟩
  cases hget : env.tableGetErr with
  | some e =>
      exact ⟨[], by rw [reset_table_get_err m env ns tid st e hns hget]⟩
  | none =>
      cases hfind : st.catalog.tables.find? (fun tb => tb.id == normalize_tid ns tid) with
      | none =>
          exact ⟨[], by rw [reset_table_absent m env ns tid st hns hget hfind]⟩
      | some t =>
          cases hdel : env.tableDeleteErr with
          | some e =>
              exact ⟨[CallEv.tableDelete (normalize_tid ns tid)],
                by rw [reset_table_found_delete_err m env ns tid st t e hns hget hfind hdel]⟩
          | none =>
              exact ⟨[CallEv.tableDelete (normalize_tid ns tid)],
                by rw [reset_table_found_ok m env ns tid st t hns hget hfind hdel]⟩

/-- Witness for C2 (amended) at concrete inputs. -/
theorem C2_amended_witness :
    (∃ rest, (reset_table ⟨some "org", "h"⟩ noErr "vessels" st0).2.trace
        = st0.trace ++ CallEv.tableGet (normalize_tid "org" "vessels") :: rest)
    ∧ (startswith "vessels" "org" = true → normalize_tid "org" "vessels" = "vessels")
    ∧ (startswith "vessels" "org" = false →
        normalize_tid "org" "vessels" = "org" ++ ":" ++ "vessels") :=
  C2_amended_normalization ⟨some "org", "h"⟩ noErr "org" "vessels" st0 rfl

/-- C3: for any identifier and any starting catalog state, two
successive successful `create_s1_product` calls with the same id leave
exactly one product with that id, and that product has exactly one
band and exactly one image. -/
theorem C3_create_twice_one_product (pid name : String) (st : St) :
    ((create_s1_product noErr pid name
        (create_s1_product noErr pid name st).2).1 = Except.ok pid)
    ∧ ((create_s1_product noErr pid name
        (create_s1_product noErr pid name st).2).2.catalog.products.filter
          (fun p => p.id == pid) = [finalProd pid name])
    ∧ ((create_s1_product noErr pid name
        (create_s1_product noErr pid name st).2).2.catalog.products.countP
          (fun p => p.id == pid) = 1)
    ∧ (finalProd pid name).bands.length = 1
    ∧ (finalProd pid name).images.length = 1 := by
  obtain ⟨h1, h2, h3⟩ := create_s1_products_eq pid name st
  obtain ⟨g1, g2, g3⟩ :=
    create_s1_products_eq pid name (create_s1_product noErr pid name st).2
  have hfe : ((finalProd pid name).id != pid) = false := by
    simp [finalProd, bne]
  have hft : ((finalProd pid name).id == pid) = true := by simp [finalProd]
  have key : (create_s1_product noErr pid name
      (create_s1_product noErr pid name st).2).2.catalog.products.filter
        (fun p => p.id == pid) = [finalProd pid name] := by
    rw [g2, h2]
    simp only [List.filter_append, filter_ne_idem, filter_eq_of_filter_ne,
      List.filter_cons, List.filter_nil, hfe, hft, ite_bool_true,
      ite_bool_false, if_true, if_false, List.nil_append, List.append_nil]
  refine ⟨g1, key, ?_, rfl, rfl⟩
  rw [List.countP_eq_length_filter, key]
  rfl

/-- C4: when the product-save, the band-save, or the image-upload call
fails inside `create_s1_product`, the same error propagates unchanged
to the caller (no id is returned, no translation, no retry), and in
the upload-failure case the partially created state — the product with
its saved band but no image — is left behind untouched. -/
theorem C4_create_propagates_failures (pid name : String) (st : St) (e : Err) :
    ((create_s1_product ⟨some e, none, none, none, none, none, none, none⟩
        pid name st).1 = Except.error e)
    ∧ ((create_s1_product ⟨none, some e, none, none, none, none, none, none⟩
        pid name st).1 = Except.error e)
    ∧ ((create_s1_product ⟨none, none, some e, none, none, none, none, none⟩
        pid name st).1 = Except.error e)
    ∧ ((create_s1_product ⟨none, none, some e, none, none, none, none, none⟩
        pid name st).2.catalog.products.filter (fun p => p.id == pid)
        = [⟨pid, name, ["examples"], [vvBand pid], []⟩]) := by
  obtain ⟨hp1, hp2⟩ := create_s1_partial_eq pid name st e
  have hsingle : ((⟨pid, name, ["examples"], [vvBand pid], []⟩ : ProductRec).id == pid) = true := by
    simp
  refine ⟨?_, ?_, hp1, ?_⟩
  · cases h : st.catalog.products.find? (fun p => p.id == pid) with
    | none =>
        simp only [create_s1_product, reset_product, Product_get,
          delete_related_objects, Product_delete, Product_save, h]
    | some q =>
        simp only [create_s1_product, reset_product, Product_get,
          delete_related_objects, Product_delete, Product_save, h]
  · cases h : st.catalog.products.find? (fun p => p.id == pid) with
    | none =>
        have hany := any_eq_false_of_find?_none (fun p => p.id) pid
          st.catalog.products h
        simp only [create_s1_product, reset_product, Product_get,
          delete_related_objects, Product_delete, Product_save, Band_save,
          h, hany, ite_bool_false]
    | some q =>
        have hany := any_filter_ne_eq_false (fun p => p.id) pid
          st.catalog.products
        have hmapfil := filter_map_clearChildren pid st.catalog.products
        simp only [create_s1_product, reset_product, Product_get,
          delete_related_objects, Product_delete, Product_save, Band_save,
          h, hmapfil, hany, ite_bool_false]
  · rw [hp2]
    simp only [List.filter_append, filter_eq_of_filter_ne, List.filter_cons,
      List.filter_nil, hsingle, ite_bool_true, if_true, if_false,
      List.nil_append]

/-- C5: resetting a product id that the catalog does not contain
performs no delete call at all — the trace gains only the lookup
event — and returns normally with the catalog unchanged. -/
theorem C5_reset_product_absent_noop (env : Env) (pid : String) (st : St)
    (h : st.catalog.products.find? (fun p => p.id == pid) = none) :
    reset_product env pid st
      = (Except.ok (), { st with trace := st.trace ++ [CallEv.productGet pid] }) := by
  simp only [reset_product, Product_get, h]

/-- Witness for C5: resetting "demo-vv" on the empty catalog. -/
theorem C5_witness :
    reset_product noErr "demo-vv" st0
      = (Except.ok (), { st0 with trace := st0.trace ++ [CallEv.productGet "demo-vv"] }) :=
  C5_reset_product_absent_noop noErr "demo-vv" st0 rfl

/-- C6: creating "demo-vv"/"Demo" on an empty catalog yields the id
"demo-vv" and exactly one product named "Demo" tagged "examples",
holding the single band "demo-vv:vv" (data_range 1..4095, UInt16,
display_range 858..2926, 10 meters) and the single image "image1"
acquired 2025-02-04. -/
theorem C6_concrete_scenario :
    ((create_s1_product noErr "demo-vv" "Demo" st0).1 = Except.ok "demo-vv")
    ∧ (create_s1_product noErr "demo-vv" "Demo" st0).2.catalog.products
        = [⟨"demo-vv", "Demo", ["examples"],
            [⟨"demo-vv:vv", 0, 0, [1, 4095], "UInt16", [858, 2926], "meters", 10⟩],
            [⟨"image1", "2025-02-04", "data/s1_sample_1.tif"⟩]⟩] :=
  ⟨rfl, by decide⟩

/-- C7 counterexample: the table created by variant A does not carry
attribute fields named "date" and "source-image-id" — the fields the
source declares are "DATE" and "SOURCE_IMG_ID". -/
theorem C7_counterexample :
    ((create_s1_table ⟨some "org", "h"⟩ noErr "vessels" st0).2.catalog.tables
        = [⟨"vessels", "S1 Vessel Detections Demo", S1VesselModel⟩])
    ∧ S1VesselModel.fields.map Prod.fst = ["DATE", "SOURCE_IMG_ID"]
    ∧ S1VesselModel.fields.map Prod.fst ≠ specClaimS1Fields := by decide

/-- C7 (amended): variant A creates a table whose declared attribute
fields are exactly DATE and SOURCE_IMG_ID (both str) plus the
multipolygon geometry of the base model, variant B one whose fields
are exactly date and confidence plus the same geometry; each uses its
fixed display name and returns the new table's id. -/
theorem C7_amended_schemas (m : ModuleEnv) (ns tid : String) (st : St)
    (hns : orgOrUserId m = Except.ok ns) :
    ((create_s1_table m noErr tid st).1 = Except.ok tid
      ∧ ∃ pre, (create_s1_table m noErr tid st).2.catalog.tables
          = pre ++ [⟨tid, "S1 Vessel Detections Demo", S1VesselModel⟩])
    ∧ ((create_s2_table m noErr tid st).1 = Except.ok tid
      ∧ ∃ pre, (create_s2_table m noErr tid st).2.catalog.tables
          = pre ++ [⟨tid, "S2 Geoai Vessel Detections Demo", S2VesselModel⟩])
    ∧ S1VesselModel.fields = [("DATE", "str"), ("SOURCE_IMG_ID", "str")]
    ∧ S1VesselModel.geometry = GeomKind.multipolygon
    ∧ S2VesselModel.fields = [("date", "str"), ("confidence", "str")]
    ∧ S2VesselModel.geometry = GeomKind.multipolygon := by
  refine ⟨?_, ?_, rfl, rfl, rfl, rfl⟩
  · cases hfind : st.catalog.tables.find? (fun tb => tb.id == normalize_tid ns tid) with
    | none =>
        refine ⟨?_, ⟨st.catalog.tables, ?_⟩⟩ <;>
          simp only [create_s1_table,
            reset_table_absent m noErr ns tid st hns rfl hfind, Table_create,
            show noErr.tableCreateErr = none from rfl]
    | some t =>
        refine ⟨?_, ⟨st.catalog.tables.filter (fun tb => tb.id != normalize_tid ns tid), ?_⟩⟩ <;>
          simp only [create_s1_table,
            reset_table_found_ok m noErr ns tid st t hns rfl hfind rfl, Table_create,
            show noErr.tableCreateErr = none from rfl]
  · cases hfind : st.catalog.tables.find? (fun tb => tb.id == normalize_tid ns tid) with
    | none =>
        refine ⟨?_, ⟨st.catalog.tables, ?_⟩⟩ <;>
          simp only [create_s2_table,
            reset_table_absent m noErr ns tid st hns rfl hfind, Table_create,
            show noErr.tableCreateErr = none from rfl]
    | some t =>
        refine ⟨?_, ⟨st.catalog.tables.filter (fun tb => tb.id != normalize_tid ns tid), ?_⟩⟩ <;>
          simp only [create_s2_table,
            reset_table_found_ok m noErr ns tid st t hns rfl hfind rfl, Table_create,
            show noErr.tableCreateErr = none from rfl]

/-- Witness for C7 (amended) at concrete inputs. -/
theorem C7_amended_witness :
    (create_s1_table ⟨some "org", "h"⟩ noErr "vessels" st0).1 = Except.ok "vessels"
    ∧ (create_s2_table ⟨some "org", "h"⟩ noErr "vessels" st0).1 = Except.ok "vessels" :=
  ⟨(C7_amended_schemas ⟨some "org", "h"⟩ "org" "vessels" st0 rfl).1.1,
   (C7_amended_schemas ⟨some "org", "h"⟩ "org" "vessels" st0 rfl).2.1.1⟩

/-- C8: for an unqualified input id (one not starting with the
namespace), the table creators look up (and would delete) the
namespace-qualified id, but pass the original bare id — a different
string — to the table-creation call, discarding the id reset_table
computed. -/
theorem C8_create_table_discards_normalized_id (m : ModuleEnv)
    (ns tid : String) (st : St)
    (hns : orgOrUserId m = Except.ok ns)
    (hbare : startswith tid ns = false)
    (habs : st.catalog.tables.find? (fun tb => tb.id == ns ++ ":" ++ tid) = none) :
    ((create_s1_table m noErr tid st).2.trace
        = st.trace ++ [CallEv.tableGet (ns ++ ":" ++ tid),
                       CallEv.tableCreate tid "S1 Vessel Detections Demo"])
    ∧ ((create_s2_table m noErr tid st).2.trace
        = st.trace ++ [CallEv.tableGet (ns ++ ":" ++ tid),
                       CallEv.tableCreate tid "S2 Geoai Vessel Detections Demo"])
    ∧ ns ++ ":" ++ tid ≠ tid := by
  have hnorm : normalize_tid ns tid = ns ++ ":" ++ tid := by
    simp only [normalize_tid, ite_bool_false _ _ _ hbare]
  have habs' : st.catalog.tables.find? (fun tb => tb.id == normalize_tid ns tid) = none := by
    rw [hnorm]; exact habs
  refine ⟨?_, ?_, ns_colon_ne ns tid⟩
  · simp only [create_s1_table,
      reset_table_absent m noErr ns tid st hns rfl habs', Table_create,
      show noErr.tableCreateErr = none from rfl,
      hnorm, List.append_assoc, List.cons_append, List.nil_append]
  · simp only [create_s2_table,
      reset_table_absent m noErr ns tid st hns rfl habs', Table_create,
      show noErr.tableCreateErr = none from rfl,
      hnorm, List.append_assoc, List.cons_append, List.nil_append]

/-- Witness for C8 at concrete inputs: lookup targets "org:vessels",
creation receives "vessels". -/
theorem C8_witness :
    ((create_s1_table ⟨some "org", "h"⟩ noErr "vessels" st0).2.trace
        = [CallEv.tableGet "org:vessels",
           CallEv.tableCreate "vessels" "S1 Vessel Detections Demo"])
    ∧ ((create_s2_table ⟨some "org", "h"⟩ noErr "vessels" st0).2.trace
        = [CallEv.tableGet "org:vessels",
           CallEv.tableCreate "vessels" "S2 Geoai Vessel Detections Demo"])
    ∧ ("org" ++ ":" ++ "vessels" : String) ≠ "vessels" := by
  have h := C8_create_table_discards_normalized_id ⟨some "org", "h"⟩
    "org" "vessels" st0 rfl (by decide) rfl
  exact ⟨h.1, h.2.1, h.2.2⟩

/-- C9: the namespace fallback in reset_table references the unbound
name user_id, so whenever the organization identifier is absent or
falsy a NameError is raised before any lookup or delete (state and
trace untouched); when the organization identifier is a non-empty
string, reset_table never raises at all. -/
theorem C9_reset_table_name_error (m : ModuleEnv) (env : Env)
    (tid : String) (st : St) :
    (isTruthy m.org = false →
      reset_table m env tid st = (Except.error (Err.nameError "user_id"), st))
    ∧ (isTruthy m.org = true →
      ∃ v, (reset_table m env tid st).1 = Except.ok v) := by
  constructor
  · intro h
    exact reset_table_falsy m env tid st h
  · intro h
    obtain ⟨ns, hns⟩ := orgOrUserId_of_truthy m h
    cases hget : env.tableGetErr with
    | some e =>
        exact ⟨some (normalize_tid ns tid),
          by rw [reset_table_get_err m env ns tid st e hns hget]⟩
    | none =>
        cases hfind : st.catalog.tables.find? (fun tb => tb.id == normalize_tid ns tid) with
        | none =>
            exact ⟨none, by rw [reset_table_absent m env ns tid st hns hget hfind]⟩
        | some t =>
            cases hdel : env.tableDeleteErr with
            | some e =>
                exact ⟨some (normalize_tid ns tid),
                  by rw [reset_table_found_delete_err m env ns tid st t e hns hget hfind hdel]⟩
            | none =>
                exact ⟨none, by rw [reset_table_found_ok m env ns tid st t hns hget hfind hdel]⟩

/-- Witness for C9: an empty org raises NameError untouched; a
non-empty org never raises. -/
theorem C9_witness :
    reset_table ⟨some "", "h"⟩ noErr "vessels" st0
      = (Except.error (Err.nameError "user_id"), st0)
    ∧ ∃ v, (reset_table ⟨some "org", "h"⟩ noErr "vessels" st0).1 = Except.ok v :=
  ⟨(C9_reset_table_name_error ⟨some "", "h"⟩ noErr "vessels" st0).1 rfl,
   (C9_reset_table_name_error ⟨some "org", "h"⟩ noErr "vessels" st0).2 rfl⟩

/-- C10: on every non-raising execution — table found and deleted, or
table not found — reset_table returns None; the rewritten id is
returned only on the exception path, so the return value never
indicates whether a table existed or was deleted. -/
theorem C10_reset_table_returns_none (m : ModuleEnv) (env : Env)
    (ns tid : String) (st : St)
    (hns : orgOrUserId m = Except.ok ns)
    (hget : env.tableGetErr = none) (hdel : env.tableDeleteErr = none) :
    (reset_table m env tid st).1 = Except.ok none := by
  cases hfind : st.catalog.tables.find? (fun tb => tb.id == normalize_tid ns tid) with
  | none => rw [reset_table_absent m env ns tid st hns hget hfind]
  | some t => rw [reset_table_found_ok m env ns tid st t hns hget hfind hdel]

/-- Witness for C10: both on an empty catalog and on one already
holding the table, the non-raising reset returns None. -/
theorem C10_witness :
    (reset_table ⟨some "org", "h"⟩ noErr "vessels" st0).1 = Except.ok none
    ∧ (reset_table ⟨some "org", "h"⟩ noErr "vessels"
        ⟨⟨[], [⟨"org:vessels", "T", S1VesselModel⟩]⟩, []⟩).1 = Except.ok none :=
  ⟨C10_reset_table_returns_none ⟨some "org", "h"⟩ noErr "org" "vessels" st0 rfl rfl rfl,
   C10_reset_table_returns_none ⟨some "org", "h"⟩ noErr "org" "vessels"
     ⟨⟨[], [⟨"org:vessels", "T", S1VesselModel⟩]⟩, []⟩ rfl rfl rfl⟩

end VesselDemo
